import Mathlib

/-
  Shallow embedding of the interactive secure shell bridge
  (internal/cmd/shell/shell.go) of the "pscale" CLI.

  Pure helpers (formatMySQLBranch, isLinked, historyFilePath naming,
  createLoginFile content) are translated directly.  The effectful
  command body (ShellCmd.RunE and mysql.Run) is embedded as a function
  of an explicit environment of collaborator outcomes (API results,
  filesystem outcomes, subprocess start/wait results); it returns the
  session outcome together with an event trace, the credential-file
  bookkeeping, and the subprocess argument/environment vectors.
-/

namespace PScale

instance {ε α : Type} [DecidableEq ε] [DecidableEq α] : DecidableEq (Except ε α) :=
  fun a b =>
    match a, b with
    | Except.ok x, Except.ok y =>
      if h : x = y then Decidable.isTrue (by rw [h])
      else Decidable.isFalse (fun hh => h (Except.ok.inj hh))
    | Except.error x, Except.error y =>
      if h : x = y then Decidable.isTrue (by rw [h])
      else Decidable.isFalse (fun hh => h (Except.error.inj hh))
    | Except.ok _, Except.error _ => Decidable.isFalse (fun hh => Except.noConfusion hh)
    | Except.error _, Except.ok _ => Decidable.isFalse (fun hh => Except.noConfusion hh)

/-- Modelled from the spec: printer.Bold is not under src/; it wraps its
argument in ANSI bold escape codes. -/
def Bold (s : String) : String := "\x1b[1m" ++ s ++ "\x1b[0m"

/-- Modelled from the spec: printer.BoldBlue is not under src/; it wraps its
argument in ANSI bold-blue escape codes. -/
def BoldBlue (s : String) : String := "\x1b[34;1m" ++ s ++ "\x1b[0m"

/-- Modelled from the spec: printer.BoldRed is not under src/; it wraps its
argument in ANSI bold-red escape codes (used to mark the production branch). -/
def BoldRed (s : String) : String := "\x1b[31;1m" ++ s ++ "\x1b[0m"

/-- Go strings.Contains: sub occurs somewhere inside s. -/
def strContains (s sub : String) : Prop := sub.data <:+: s.data

instance (s sub : String) : Decidable (strContains s sub) :=
  List.decidableInfix sub.data s.data

/-- isLinked from shell.go: the libs listing mentions libreadline or libedit. -/
def isLinked (libs : String) : Bool :=
  decide (strContains libs "libreadline") || decide (strContains libs "libedit")

/-- formatMySQLBranch from shell.go: "database/branch> " with the branch
bold-red when it is "main" and bold-blue otherwise. -/
def formatMySQLBranch (database branch : String) : String :=
  let branchStyled := if branch = "main" then BoldRed branch else BoldBlue branch
  Bold database ++ "/" ++ branchStyled ++ "> "

/-- Outcome oracle for the filesystem steps of createLoginFile: whether
ioutil.TempFile succeeds, whether each of the three writes succeeds, and
whether Close succeeds.  shell.go inspects only the TempFile error. -/
structure FileOutcome where
  openOk : Bool
  write1Ok : Bool
  write2Ok : Bool
  write3Ok : Bool
  closeOk : Bool
deriving DecidableEq, Repr

/-- Result of createLoginFile: the returned path and error, plus the bytes
actually on disk and the file mode (ioutil.TempFile creates with 0600). -/
structure LoginFileResult where
  path : String
  error : Option String
  content : String
  mode : Nat
deriving DecidableEq, Repr

/-- Permission bits ioutil.TempFile uses, per the comment in shell.go. -/
def tempFileMode : Nat := 0o600

/-- createLoginFile from shell.go: opens a temp file, writes the client
stanza, the user line and the password line with fmt.Fprintln/Fprintf whose
errors are discarded, ignores the Close error, and returns (name, nil). -/
def createLoginFile (username password : String) (tmpName : String)
    (fs : FileOutcome) : LoginFileResult :=
  if fs.openOk then
    let c1 := if fs.write1Ok then "[client]\n" else ""
    let c2 := if fs.write2Ok then "user=" ++ username ++ "\n" else ""
    let c3 := if fs.write3Ok then "password=" ++ password ++ "\n" else ""
    { path := tmpName, error := none, content := c1 ++ c2 ++ c3,
      mode := tempFileMode }
  else
    { path := "", error := some "could not create temporary file", content := "",
      mode := 0 }

/-- The history file name from historyFilePath: org.db.branch. -/
def historyFilename (org db branch : String) : String :=
  org ++ "." ++ db ++ "." ++ branch

/-- Split a character list at every occurrence of the separator; adjacent
separators yield empty elements, as in Go path splitting. -/
def splitOnChar (sep : Char) : List Char → List (List Char)
  | [] => [[]]
  | c :: rest =>
    if c = sep then [] :: splitOnChar sep rest
    else
      match splitOnChar sep rest with
      | [] => [[c]]
      | h :: t => (c :: h) :: t

/-- Whether a path starts with the separator (Go: rooted). -/
def isRooted : List Char → Bool
  | [] => false
  | c :: _ => c = '/'

/-- One step of filepath.Clean element processing: skip empty and dot
elements, let dot-dot pop the last real element (or accumulate when there
is nothing left to pop and the path is not rooted), push everything else.
The stack holds the output elements in reverse. -/
def cleanStep (rooted : Bool) (stack : List String) (e : String) :
    List String :=
  if e = "" ∨ e = "." then stack
  else if e = ".." then
    match stack with
    | top :: more => if top = ".." then ".." :: top :: more else more
    | [] => if rooted then [] else [".."]
  else e :: stack

/-- Process a whole element list with cleanStep. -/
def cleanStack (rooted : Bool) (stack : List String) (es : List String) :
    List String :=
  es.foldl (cleanStep rooted) stack

/-- Join path elements with the separator. -/
def joinElems : List String → String
  | [] => ""
  | [e] => e
  | e :: e2 :: rest => e ++ "/" ++ joinElems (e2 :: rest)

/-- Go's filepath.Clean for separator-slash paths: shortest lexically
equivalent path (collapse repeated separators, drop dot elements, resolve
dot-dot elements against preceding real elements). -/
def clean (path : String) : String :=
  if path = "" then "."
  else
    let rooted := isRooted path.data
    let elems := (splitOnChar '/' path.data).map (fun l => String.mk l)
    let stack := (cleanStack rooted [] elems).reverse
    if rooted then "/" ++ joinElems stack
    else if stack = [] then "." else joinElems stack

/-- Go's filepath.Join: drop leading empty elements, join the rest with the
separator and Clean the result; all-empty input gives the empty string. -/
def filepathJoin : List String → String
  | [] => ""
  | e :: rest => if e = "" then filepathJoin rest else clean (joinElems (e :: rest))

/-- The history file path computed by shell.go for one home directory and
target triple: filepath.Join(homedir, ".pscale", "history") joined with the
dotted file name, both joins Cleaning their result. -/
def historyPath (home org db branch : String) : String :=
  filepathJoin [filepathJoin [home, ".pscale", "history"],
    historyFilename org db branch]

/-- historyFilePath from shell.go: Join(homedir, ".pscale", "history") then
Join with org.db.branch, failing when the home directory cannot be
determined or MkdirAll fails. -/
def historyFilePath (home : Except String String) (mkdirOk : Bool)
    (org db branch : String) : Except String String :=
  match home with
  | Except.error e => Except.error e
  | Except.ok dir =>
    if mkdirOk then
      Except.ok (historyPath dir org db branch)
    else
      Except.error "mkdir failed"

/-- checkLibs from shell.go: on linux and unix it returns (false, nil)
without running anything; otherwise it runs the introspection command
(otool -L on darwin, the empty command elsewhere) and classifies its
output, turning a command failure into an error. -/
def checkLibs (goos : String) (otoolRun : Except String String) :
    Except String Bool :=
  if goos = "linux" || goos = "unix" then
    Except.ok false
  else
    match otoolRun with
    | Except.error e => Except.error ("failed to check linking: " ++ e)
    | Except.ok out => Except.ok (isLinked out)

/-- The Go assignment linked, err := checkLibs(...): checkLibs returns
false together with any error, so linked is false on the error path. -/
def linkedOf (r : Except String Bool) : Bool :=
  match r with
  | Except.ok b => b
  | Except.error _ => false

/-- The mysql struct of shell.go. -/
structure Mysql where
  mysqlPath : String
  dir : String
  styledBranch : String
  historyFile : String
  debug : Bool
deriving DecidableEq, Repr

/-- Outcomes of the effectful steps inside mysql.Run: the platform, the
introspection command result, and the subprocess Start and Wait errors. -/
structure MysqlWorld where
  goos : String
  otoolRun : Except String String
  startErr : Option String
  waitErr : Option String
deriving DecidableEq, Repr

/-- How mysql.Run ends: log.Fatal after a failed Start (the process exits,
deferred functions do not run), or a normal return carrying the Wait error. -/
inductive RunExit
  | fatal (msg : String)
  | done (err : Option String)
deriving DecidableEq, Repr

/-- Observable events of one session, in program order. -/
inductive Event
  | resolveBranch
  | branchGet
  | proxyCreate
  | tunnelStart
  | statusGet
  | credFileCreate
  | capabilityCheck
  | clientStart
  | clientWait
  | credFileRemove
deriving DecidableEq, Repr

/-- What mysql.Run produces: the variables it appends to os.Environ(), the
debug diagnostics it prints, how it ends, and its event trace. -/
structure MysqlRunOutcome where
  args : List String
  env : List String
  logged : List String
  exit : RunExit
  events : List Event
deriving DecidableEq, Repr

/-- The debug diagnostics mysql.Run prints about the capability check,
printed only when debug is set. -/
def debugLog (debug : Bool) (libs : Except String Bool) : List String :=
  if debug then
    match libs with
    | Except.error e => ["failed to check linking: " ++ e]
    | Except.ok true => ["mysql is linked against readline/editline"]
    | Except.ok false => ["mysql is not linked against readline/editline"]
  else []

/-- mysql.Run from shell.go: appends MYSQL_HISTFILE to the environment,
runs the capability check (non-fatal; diagnostics only under debug),
appends MYSQL_PS1 only when linked, starts the client (a Start error is
log.Fatal, exiting the process), and otherwise returns the Wait error. -/
def mysqlRun (m : Mysql) (fs : MysqlWorld) (args : List String) :
    MysqlRunOutcome :=
  let libs := checkLibs fs.goos fs.otoolRun
  let linked := linkedOf libs
  let logged := debugLog m.debug libs
  let env0 := ["MYSQL_HISTFILE=" ++ m.historyFile]
  let env := if linked then env0 ++ ["MYSQL_PS1=" ++ m.styledBranch] else env0
  match fs.startErr with
  | some e =>
    { args := args, env := env, logged := logged, exit := RunExit.fatal e,
      events := [Event.capabilityCheck, Event.clientStart] }
  | none =>
    { args := args, env := env, logged := logged,
      exit := RunExit.done fs.waitErr,
      events := [Event.capabilityCheck, Event.clientStart, Event.clientWait] }

/-- Errors an API call can produce, as classified by cmdutil.ErrCode. -/
inductive ApiError
  | notFound
  | other (msg : String)
deriving DecidableEq, Repr

/-- Branch credentials, from the branch status API response. -/
structure Credentials where
  user : String
  password : String
deriving DecidableEq, Repr

/-- The branch status retrieved once per session. -/
structure BranchStatus where
  credentials : Credentials
deriving DecidableEq, Repr

/-- The values ShellCmd.RunE can return, one constructor per return site. -/
inductive ShellError
  | notInteractive
  | mysqlPathErr (e : String)
  | clientConfigErr (e : String)
  | promptErr (e : String)
  | msgErr (msg : String)
  | upstreamErr (e : String)
  | branchNotReady
  | loginFileErr (e : String)
  | localAddrErr (e : String)
  | historyErr (e : String)
  | clientExit (e : String)
deriving DecidableEq, Repr

/-- How the whole command ends: a return from RunE (deferred functions have
run), or a process exit through log.Fatal (deferred functions skipped). -/
inductive ExitKind
  | returned (err : Option ShellError)
  | fatalExit (msg : String)
deriving DecidableEq, Repr

/-- Outcomes of every effectful collaborator ShellCmd.RunE consults. -/
structure ShellEnv where
  isTTY : Bool
  human : Bool
  mysqlPath : Except String String
  clientCfg : Except String Unit
  argBranch : Option String
  promptBranch : Except String String
  branchGet : Except ApiError Unit
  proxyNew : Except String Unit
  statusGet : Except ApiError BranchStatus
  tmpName : String
  loginFs : FileOutcome
  localAddr : Except String (String × String)
  home : Except String String
  mkdirOk : Bool
  mysqlWorld : MysqlWorld
  debug : Bool
deriving DecidableEq, Repr

/-- The observable outcome of one ShellCmd.RunE invocation. -/
structure ShellOutcome where
  exit : ExitKind
  events : List Event
  tunnelStarted : Bool
  credFileCreated : Bool
  credFile : LoginFileResult
  credFileRemoved : Bool
  mysqlArgs : List String
  mysqlEnv : List String
deriving DecidableEq, Repr

/-- The no-file placeholder for runs that never create a credential file. -/
def noFile : LoginFileResult :=
  { path := "", error := none, content := "", mode := 0 }

/-- A return taken before the credential file exists. -/
def abortBefore (evs : List Event) (tun : Bool) (e : ShellError) : ShellOutcome :=
  { exit := ExitKind.returned (some e), events := evs, tunnelStarted := tun,
    credFileCreated := false, credFile := noFile, credFileRemoved := false,
    mysqlArgs := [], mysqlEnv := [] }

/-- A return taken after the credential file exists: the deferred os.Remove
runs, but only if it was installed (tmpFile is non-empty). -/
def abortAfter (evs : List Event) (f : LoginFileResult) (e : ShellError) :
    ShellOutcome :=
  { exit := ExitKind.returned (some e),
    events := if f.path = "" then evs else evs ++ [Event.credFileRemove],
    tunnelStarted := true, credFileCreated := true, credFile := f,
    credFileRemoved := f.path != "", mysqlArgs := [], mysqlEnv := [] }

/-- The not-found message of the branch existence check in ShellCmd. -/
def branchGetNotFoundMsg (org database branch : String) : String :=
  "database " ++ BoldBlue database ++ " and branch " ++ BoldBlue branch ++
    " does not exist in organization " ++ BoldBlue org

/-- The not-found message of the branch status call in ShellCmd. -/
def statusNotFoundMsg (org database branch : String) : String :=
  "branch " ++ BoldBlue branch ++ " does not exist in database " ++
    BoldBlue database ++ " (organization: " ++ BoldBlue org ++ ")"

/-- ShellCmd.RunE from shell.go, step by step: interactivity check, mysql
client lookup, API client construction, branch resolution (prompting only if
no branch argument was given), branch existence check, proxy construction,
tunnel goroutine start, branch status retrieval, readiness check, credential
file creation with a deferred removal guarded by a non-empty name, local
address lookup, history file path computation, and finally mysql.Run. -/
def shellCmd (org database : String) (env : ShellEnv) : ShellOutcome :=
  if !(env.isTTY && env.human) then
    abortBefore [] false ShellError.notInteractive
  else
    match env.mysqlPath with
    | Except.error e => abortBefore [] false (ShellError.mysqlPathErr e)
    | Except.ok mysqlPath =>
    match env.clientCfg with
    | Except.error e => abortBefore [] false (ShellError.clientConfigErr e)
    | Except.ok _ =>
    let resolved : List Event × Except String String :=
      match env.argBranch with
      | some b => ([], Except.ok b)
      | none => ([Event.resolveBranch], env.promptBranch)
    match resolved with
    | (evs0, Except.error e) => abortBefore evs0 false (ShellError.promptErr e)
    | (evs0, Except.ok branch) =>
    let evs1 := evs0 ++ [Event.branchGet]
    match env.branchGet with
    | Except.error ApiError.notFound =>
      abortBefore evs1 false
        (ShellError.msgErr (branchGetNotFoundMsg org database branch))
    | Except.error (ApiError.other e) =>
      abortBefore evs1 false (ShellError.upstreamErr e)
    | Except.ok _ =>
    let evs2 := evs1 ++ [Event.proxyCreate]
    match env.proxyNew with
    | Except.error e =>
      abortBefore evs2 false
        (ShellError.msgErr ("couldn't create proxy client: " ++ e))
    | Except.ok _ =>
    let evs3 := evs2 ++ [Event.tunnelStart]
    let evs4 := evs3 ++ [Event.statusGet]
    match env.statusGet with
    | Except.error ApiError.notFound =>
      abortBefore evs4 true
        (ShellError.msgErr (statusNotFoundMsg org database branch))
    | Except.error (ApiError.other e) =>
      abortBefore evs4 true (ShellError.upstreamErr e)
    | Except.ok status =>
    if status.credentials.user = "" then
      abortBefore evs4 true ShellError.branchNotReady
    else
      let f := createLoginFile status.credentials.user
        status.credentials.password env.tmpName env.loginFs
      match f.error with
      | some e => abortBefore evs4 true (ShellError.loginFileErr e)
      | none =>
        let evs5 := evs4 ++ [Event.credFileCreate]
        match env.localAddr with
        | Except.error e => abortAfter evs5 f (ShellError.localAddrErr e)
        | Except.ok (host, port) =>
        let mysqlArgs := ["--defaults-extra-file=" ++ f.path, "-s", "-t",
          "-h", host, "-P", port]
        match historyFilePath env.home env.mkdirOk org database branch with
        | Except.error e => abortAfter evs5 f (ShellError.historyErr e)
        | Except.ok historyFile =>
          let m : Mysql :=
            { mysqlPath := mysqlPath
              dir := ""
              styledBranch := formatMySQLBranch database branch
              historyFile := historyFile
              debug := env.debug }
          let r := mysqlRun m env.mysqlWorld mysqlArgs
          match r.exit with
          | RunExit.fatal msg =>
            { exit := ExitKind.fatalExit msg, events := evs5 ++ r.events,
              tunnelStarted := true, credFileCreated := true, credFile := f,
              credFileRemoved := false, mysqlArgs := mysqlArgs,
              mysqlEnv := r.env }
          | RunExit.done werr =>
            { exit := ExitKind.returned (Option.map ShellError.clientExit werr),
              events :=
                if f.path = "" then evs5 ++ r.events
                else evs5 ++ r.events ++ [Event.credFileRemove],
              tunnelStarted := true, credFileCreated := true, credFile := f,
              credFileRemoved := f.path != "", mysqlArgs := mysqlArgs,
              mysqlEnv := r.env }

/-- A fully successful session environment used for concrete runs. -/
def okEnv : ShellEnv :=
  { isTTY := true
    human := true
    mysqlPath := Except.ok "/usr/bin/mysql"
    clientCfg := Except.ok ()
    argBranch := none
    promptBranch := Except.ok "main"
    branchGet := Except.ok ()
    proxyNew := Except.ok ()
    statusGet := Except.ok { credentials := { user := "shop_ro", password := "secret" } }
    tmpName := "/tmp/pscale-123"
    loginFs := { openOk := true, write1Ok := true, write2Ok := true,
                 write3Ok := true, closeOk := true }
    localAddr := Except.ok ("127.0.0.1", "54321")
    home := Except.ok "/home/u"
    mkdirOk := true
    mysqlWorld := { goos := "darwin"
                    otoolRun := Except.ok "/usr/lib/libedit.3.dylib"
                    startErr := none
                    waitErr := none }
    debug := false }

/-- A filesystem outcome where the open succeeds but every write and the
close fail. -/
def failWrites : FileOutcome :=
  { openOk := true, write1Ok := false, write2Ok := false, write3Ok := false,
    closeOk := false }

/- ------------------------------------------------------------------ -/
/- Helper lemmas                                                       -/
/- ------------------------------------------------------------------ -/

theorem strContains_intro (u v s big : String) (h : u ++ s ++ v = big) :
    strContains big s := by
  refine ⟨u.data, v.data, ?_⟩
  rw [← h]
  simp [String.data_append]

theorem append_sep_cancel {α : Type} (sep : α) :
    ∀ (a1 a2 r1 r2 : List α), sep ∉ a1 → sep ∉ a2 →
      a1 ++ sep :: r1 = a2 ++ sep :: r2 → a1 = a2 ∧ r1 = r2 := by
  intro a1
  induction a1 with
  | nil =>
    intro a2 r1 r2 _ h2 h
    cases a2 with
    | nil =>
      simp only [List.nil_append, List.cons.injEq] at h
      exact ⟨rfl, h.2⟩
    | cons y u =>
      simp only [List.nil_append, List.cons_append, List.cons.injEq] at h
      exact absurd (by rw [h.1]; exact List.mem_cons_self y u) h2
  | cons x t ih =>
    intro a2 r1 r2 h1 h2 h
    cases a2 with
    | nil =>
      simp only [List.cons_append, List.nil_append, List.cons.injEq] at h
      exact absurd (by rw [← h.1]; exact List.mem_cons_self x t) h1
    | cons y u =>
      simp only [List.cons_append, List.cons.injEq] at h
      obtain ⟨hxy, htl⟩ := h
      have h1t : sep ∉ t := fun hm => h1 (List.mem_cons_of_mem x hm)
      have h2u : sep ∉ u := fun hm => h2 (List.mem_cons_of_mem y hm)
      obtain ⟨ha, hr⟩ := ih u r1 r2 h1t h2u htl
      exact ⟨by rw [hxy, ha], hr⟩

theorem historyFilename_cancel (o1 d1 b1 o2 d2 b2 : String)
    (ho1 : ('.' : Char) ∉ o1.data) (hd1 : ('.' : Char) ∉ d1.data)
    (ho2 : ('.' : Char) ∉ o2.data) (hd2 : ('.' : Char) ∉ d2.data)
    (h : historyFilename o1 d1 b1 = historyFilename o2 d2 b2) :
    o1 = o2 ∧ d1 = d2 ∧ b1 = b2 := by
  have hd := congrArg String.data h
  have edot : (".").data = ['.'] := rfl
  simp only [historyFilename, String.data_append, edot, List.append_assoc,
    List.singleton_append] at hd
  obtain ⟨ho, hrest⟩ := append_sep_cancel '.' o1.data o2.data _ _ ho1 ho2 hd
  obtain ⟨hdd, hb⟩ := append_sep_cancel '.' d1.data d2.data _ _ hd1 hd2 hrest
  exact ⟨String.ext ho, String.ext hdd, String.ext hb⟩

theorem ps1_ne_histfile (a b : String) :
    ("MYSQL_PS1=" ++ a) ≠ ("MYSQL_HISTFILE=" ++ b) := by
  intro h
  have hd := congrArg String.data h
  simp only [String.data_append] at hd
  simp only [List.cons_append, List.nil_append, List.cons.injEq] at hd
  exact absurd hd.2.2.2.2.2.2.1 (by decide)

theorem boldRed_ne_boldBlue (b : String) : BoldRed b ≠ BoldBlue b := by
  intro h
  have hd := congrArg String.data h
  simp only [BoldRed, BoldBlue, String.data_append] at hd
  simp only [List.append_assoc, List.cons_append, List.nil_append,
    List.cons.injEq] at hd
  exact absurd hd.2.2.2.1 (by decide)

/- ------------------------------------------------------------------ -/
/- C3                                                                  -/
/- ------------------------------------------------------------------ -/

/-- C3: for every username and password, when the temporary file opens and
the three writes go through, the credential file holds exactly the client
stanza followed by the user line and the password line, and its mode is
0600, with no group or world bits set. -/
theorem credFile_exact_content (u p name : String) (fs : FileOutcome)
    (hopen : fs.openOk = true) (h1 : fs.write1Ok = true)
    (h2 : fs.write2Ok = true) (h3 : fs.write3Ok = true) :
    (createLoginFile u p name fs).content =
      "[client]\n" ++ ("user=" ++ u ++ "\n") ++ ("password=" ++ p ++ "\n") ∧
    (createLoginFile u p name fs).mode = 0o600 ∧
    (createLoginFile u p name fs).mode &&& 0o077 = 0 := by
  refine ⟨?_, ?_, ?_⟩
  · simp [createLoginFile, hopen, h1, h2, h3]
  · simp [createLoginFile, hopen, tempFileMode]
  · simp only [createLoginFile, hopen, if_true]
    decide

/-- Witness for C3 at concrete credentials. -/
theorem credFile_exact_content_witness :
    (createLoginFile "shop_ro" "secret" "/tmp/pscale-123" okEnv.loginFs).content =
      "[client]\n" ++ ("user=" ++ "shop_ro" ++ "\n") ++ ("password=" ++ "secret" ++ "\n") ∧
    (createLoginFile "shop_ro" "secret" "/tmp/pscale-123" okEnv.loginFs).mode = 0o600 ∧
    (createLoginFile "shop_ro" "secret" "/tmp/pscale-123" okEnv.loginFs).mode &&& 0o077 = 0 :=
  credFile_exact_content "shop_ro" "secret" "/tmp/pscale-123" okEnv.loginFs
    rfl rfl rfl rfl

/- ------------------------------------------------------------------ -/
/- C10                                                                 -/
/- ------------------------------------------------------------------ -/

/-- C10: createLoginFile reports success whenever the temporary file could
be opened, whatever happens to the writes and the close; in particular a
file with none of the credential content can be returned without error. -/
theorem credFile_success_despite_write_errors (u p name : String)
    (fs : FileOutcome) (hopen : fs.openOk = true) :
    (createLoginFile u p name fs).error = none ∧
    (createLoginFile u p name fs).path = name ∧
    (fs.write1Ok = false → fs.write2Ok = false → fs.write3Ok = false →
      (createLoginFile u p name fs).content = "") := by
  refine ⟨by simp [createLoginFile, hopen], by simp [createLoginFile, hopen], ?_⟩
  intro h1 h2 h3
  simp [createLoginFile, hopen, h1, h2, h3]

/-- Witness for C10: all three writes and the close fail, yet the result is
a path with no error and an empty file. -/
theorem credFile_success_despite_write_errors_witness :
    (createLoginFile "u" "p" "/tmp/pscale-9" failWrites).error = none ∧
    (createLoginFile "u" "p" "/tmp/pscale-9" failWrites).path = "/tmp/pscale-9" ∧
    (failWrites.write1Ok = false → failWrites.write2Ok = false →
      failWrites.write3Ok = false →
      (createLoginFile "u" "p" "/tmp/pscale-9" failWrites).content = "") :=
  credFile_success_despite_write_errors "u" "p" "/tmp/pscale-9" failWrites rfl

/- ------------------------------------------------------------------ -/
/- C9                                                                  -/
/- ------------------------------------------------------------------ -/

theorem empty_append_str (s : String) : "" ++ s = s :=
  String.ext (by simp)

theorem string_append_cancel_left (B z1 z2 : String) (h : B ++ z1 = B ++ z2) :
    z1 = z2 := by
  have hd := congrArg String.data h
  simp only [String.data_append, List.append_cancel_left_eq] at hd
  exact String.ext hd

theorem splitOnChar_ne_nil (sep : Char) (l : List Char) :
    ¬ splitOnChar sep l = [] := by
  cases l with
  | nil => simp [splitOnChar]
  | cons c t =>
    by_cases hc : c = sep
    · simp [splitOnChar, hc]
    · simp only [splitOnChar, if_neg hc]
      cases ht : splitOnChar sep t <;> simp

theorem splitOnChar_cons_ne (sep c : Char) (rest : List Char)
    (hc : ¬ c = sep) :
    splitOnChar sep (c :: rest) =
      match splitOnChar sep rest with
      | [] => [[c]]
      | h :: t => (c :: h) :: t := by
  simp [splitOnChar, hc]

theorem splitOnChar_append (sep : Char) (a b : List Char) :
    splitOnChar sep (a ++ sep :: b) =
      splitOnChar sep a ++ splitOnChar sep b := by
  induction a with
  | nil => simp [splitOnChar]
  | cons c t ih =>
    by_cases hc : c = sep
    · simp [splitOnChar, hc, ih]
    · cases ht : splitOnChar sep t with
      | nil => exact absurd ht (splitOnChar_ne_nil sep t)
      | cons h r =>
        rw [List.cons_append, splitOnChar_cons_ne sep c (t ++ sep :: b) hc,
          splitOnChar_cons_ne sep c t hc, ih, ht]
        simp

theorem splitOnChar_of_not_mem (sep : Char) (l : List Char) (h : sep ∉ l) :
    splitOnChar sep l = [l] := by
  induction l with
  | nil => rfl
  | cons c t ih =>
    have hc : ¬ c = sep := fun hh =>
      h (by rw [hh]; exact List.mem_cons_self sep t)
    have ht := ih (fun hm => h (List.mem_cons_of_mem c hm))
    simp [splitOnChar, if_neg hc, ht]

theorem isRooted_append (a b : List Char) (h : ¬ a = []) :
    isRooted (a ++ b) = isRooted a := by
  cases a with
  | nil => exact absurd rfl h
  | cons c t => rfl

theorem joinElems_append_single (l : List String) (w : String) :
    joinElems (l ++ [w]) = (if l = [] then "" else joinElems l ++ "/") ++ w := by
  induction l with
  | nil => simp [joinElems, empty_append_str]
  | cons e rest ih =>
    cases rest with
    | nil => simp [joinElems]
    | cons e2 r2 =>
      rw [List.cons_append] at ih
      rw [List.cons_append, List.cons_append]
      simp only [joinElems, ih]
      simp [String.append_assoc]

theorem clean_single_elem (z : String) (h0 : ¬ z = "") (h1 : ¬ z = ".")
    (h2 : ¬ z = "..") (hs : ('/' : Char) ∉ z.data) : clean z = z := by
  unfold clean
  rw [if_neg h0]
  have hroot : isRooted z.data = false := by
    cases hz : z.data with
    | nil => rfl
    | cons c t =>
      have hc : ¬ c = '/' := by
        intro hh
        exact hs (by rw [hz, hh]; exact List.mem_cons_self '/' t)
      simp [isRooted, hc]
  rw [hroot, splitOnChar_of_not_mem '/' z.data hs]
  simp [cleanStack, cleanStep, h0, h1, h2, joinElems]

theorem clean_append_proper (D : String) (hD : ¬ D = "") :
    ∃ B : String, ∀ w : String, ¬ w = "" → ¬ w = "." → ¬ w = ".." →
      ('/' : Char) ∉ w.data → clean (D ++ "/" ++ w) = B ++ w := by
  have hDdata : ¬ D.data = [] := by
    intro hh
    apply hD
    apply String.ext
    simp [hh]
  refine ⟨(if isRooted D.data = true then "/" else "") ++
    (if (cleanStack (isRooted D.data) []
          ((splitOnChar '/' D.data).map (fun l => String.mk l))).reverse = []
      then ""
      else joinElems ((cleanStack (isRooted D.data) []
          ((splitOnChar '/' D.data).map (fun l => String.mk l))).reverse) ++ "/"),
    ?_⟩
  intro w h0 h1 h2 hs
  have hne : ¬ (D ++ "/" ++ w) = "" := by
    intro hh
    have hd := congrArg String.data hh
    simp [String.data_append] at hd
  have hdata : (D ++ "/" ++ w).data = D.data ++ '/' :: w.data := by
    simp [String.data_append]
  unfold clean
  rw [if_neg hne, hdata, isRooted_append D.data ('/' :: w.data) hDdata,
    splitOnChar_append '/' D.data w.data,
    splitOnChar_of_not_mem '/' w.data hs]
  simp only [List.map_append, List.map_cons, List.map_nil, cleanStack,
    List.foldl_append, List.foldl_cons, List.foldl_nil]
  have hmkw : String.mk w.data = w := rfl
  rw [hmkw]
  have hstep : cleanStep (isRooted D.data)
      (List.foldl (cleanStep (isRooted D.data)) []
        ((splitOnChar '/' D.data).map (fun l => String.mk l))) w =
      w :: List.foldl (cleanStep (isRooted D.data)) []
        ((splitOnChar '/' D.data).map (fun l => String.mk l)) := by
    simp [cleanStep, h0, h1, h2]
  rw [hstep]
  simp only [List.reverse_cons]
  rw [joinElems_append_single]
  cases hroot : isRooted D.data <;>
    simp [hroot, String.append_assoc, empty_append_str]

theorem filepathJoin_pair (D z : String) :
    filepathJoin [D, z] =
      if D = "" then (if z = "" then "" else clean z)
      else clean (D ++ "/" ++ z) := by
  by_cases hD : D = "" <;> by_cases hz : z = "" <;>
    simp [filepathJoin, joinElems, hD, hz]

theorem filepathJoin_elem_cancel (D z1 z2 : String)
    (h01 : ¬ z1 = "") (h11 : ¬ z1 = ".") (h21 : ¬ z1 = "..")
    (hs1 : ('/' : Char) ∉ z1.data)
    (h02 : ¬ z2 = "") (h12 : ¬ z2 = ".") (h22 : ¬ z2 = "..")
    (hs2 : ('/' : Char) ∉ z2.data)
    (h : filepathJoin [D, z1] = filepathJoin [D, z2]) : z1 = z2 := by
  rw [filepathJoin_pair, filepathJoin_pair] at h
  by_cases hD : D = ""
  · rw [if_pos hD, if_pos hD, if_neg h01, if_neg h02,
      clean_single_elem z1 h01 h11 h21 hs1,
      clean_single_elem z2 h02 h12 h22 hs2] at h
    exact h
  · rw [if_neg hD, if_neg hD] at h
    obtain ⟨B, hB⟩ := clean_append_proper D hD
    rw [hB z1 h01 h11 h21 hs1, hB z2 h02 h12 h22 hs2] at h
    exact string_append_cancel_left B z1 z2 h

theorem historyFilename_data (o d b : String) :
    (historyFilename o d b).data =
      o.data ++ '.' :: (d.data ++ '.' :: b.data) := by
  simp [historyFilename, String.data_append]

theorem historyFilename_proper (o d b : String)
    (ne : ¬ (o = "" ∧ d = "" ∧ b = "")) :
    ¬ historyFilename o d b = "" ∧ ¬ historyFilename o d b = "." ∧
      ¬ historyFilename o d b = ".." := by
  refine ⟨fun hh => ?_, fun hh => ?_, fun hh => ?_⟩ <;>
    have hd2 := congrArg String.data hh <;>
    rw [historyFilename_data] at hd2
  · simp at hd2
  · cases ho : o.data <;> rw [ho] at hd2 <;> simp at hd2
  · cases ho : o.data with
    | cons c t =>
      rw [ho] at hd2
      simp only [List.cons_append, List.cons.injEq] at hd2
      obtain ⟨-, hd3⟩ := hd2
      cases t with
      | nil => simp at hd3
      | cons c2 t2 => simp at hd3
    | nil =>
      rw [ho] at hd2
      simp only [List.nil_append, List.cons.injEq] at hd2
      obtain ⟨-, hd3⟩ := hd2
      cases hdd : d.data with
      | cons c t =>
        rw [hdd] at hd3
        simp at hd3
      | nil =>
        rw [hdd] at hd3
        simp only [List.nil_append, List.cons.injEq] at hd3
        obtain ⟨-, hb3⟩ := hd3
        exact ne ⟨String.ext (by simp [ho]), String.ext (by simp [hdd]),
          String.ext (by simp [hb3])⟩

theorem historyFilename_no_slash (o d b : String)
    (so : ('/' : Char) ∉ o.data) (sd : ('/' : Char) ∉ d.data)
    (sb : ('/' : Char) ∉ b.data) :
    ('/' : Char) ∉ (historyFilename o d b).data := by
  rw [historyFilename_data]
  intro hm
  simp only [List.mem_append, List.mem_cons] at hm
  rcases hm with hm | hm | hm | hm | hm
  · exact so hm
  · exact absurd hm (by decide)
  · exact sd hm
  · exact absurd hm (by decide)
  · exact sb hm

/-- C9 counterexample: distinct (organization, database, branch) triples
whose computed history file paths coincide.  The three names are joined
with dots, so a dot inside a name shifts the separators; and filepath.Join
Cleans the joined path, so path separators inside a name can collapse. -/
theorem historyFilePath_collision :
    (("a.b", "c", "d") ≠ (("a" : String), ("b.c" : String), ("d" : String))) ∧
    historyFilePath (Except.ok "/home/u") true "a.b" "c" "d" =
      historyFilePath (Except.ok "/home/u") true "a" "b.c" "d" ∧
    (("x", "y", "a//b") ≠ (("x" : String), ("y" : String), ("a/b" : String))) ∧
    historyFilePath (Except.ok "/home/u") true "x" "y" "a//b" =
      historyFilePath (Except.ok "/home/u") true "x" "y" "a/b" := by
  exact ⟨by decide, by decide, by decide, by decide⟩

/-- C9 amended: the history file path is a function of the triple (two
sessions with the same home directory and triple get the same path), and
distinct triples get distinct paths provided the organization and database
names contain no dot, none of the three names contains a path separator,
and the three names are not all empty; outside those conditions a dotted
name shifts the separators and path Cleaning can merge names, so paths can
collide. -/
theorem historyFilePath_per_triple (home o1 d1 b1 o2 d2 b2 : String)
    (ho1 : ('.' : Char) ∉ o1.data) (hd1 : ('.' : Char) ∉ d1.data)
    (ho2 : ('.' : Char) ∉ o2.data) (hd2 : ('.' : Char) ∉ d2.data)
    (so1 : ('/' : Char) ∉ o1.data) (sd1 : ('/' : Char) ∉ d1.data)
    (sb1 : ('/' : Char) ∉ b1.data)
    (so2 : ('/' : Char) ∉ o2.data) (sd2 : ('/' : Char) ∉ d2.data)
    (sb2 : ('/' : Char) ∉ b2.data)
    (ne1 : ¬ (o1 = "" ∧ d1 = "" ∧ b1 = ""))
    (ne2 : ¬ (o2 = "" ∧ d2 = "" ∧ b2 = ""))
    (h : historyFilePath (Except.ok home) true o1 d1 b1 =
         historyFilePath (Except.ok home) true o2 d2 b2) :
    o1 = o2 ∧ d1 = d2 ∧ b1 = b2 := by
  simp only [historyFilePath, if_true] at h
  have h2 := Except.ok.inj h
  unfold historyPath at h2
  obtain ⟨p01, p11, p21⟩ := historyFilename_proper o1 d1 b1 ne1
  obtain ⟨p02, p12, p22⟩ := historyFilename_proper o2 d2 b2 ne2
  have hf := filepathJoin_elem_cancel
    (filepathJoin [home, ".pscale", "history"])
    (historyFilename o1 d1 b1) (historyFilename o2 d2 b2)
    p01 p11 p21 (historyFilename_no_slash o1 d1 b1 so1 sd1 sb1)
    p02 p12 p22 (historyFilename_no_slash o2 d2 b2 so2 sd2 sb2) h2
  exact historyFilename_cancel o1 d1 b1 o2 d2 b2 ho1 hd1 ho2 hd2 hf

/-- Witness for C9 amended at dot-free, separator-free names. -/
theorem historyFilePath_per_triple_witness :
    ("acme" : String) = "acme" ∧ ("shop" : String) = "shop" ∧
      ("main" : String) = "main" :=
  historyFilePath_per_triple "/home/u" "acme" "shop" "main" "acme" "shop" "main"
    (by decide) (by decide) (by decide) (by decide)
    (by decide) (by decide) (by decide)
    (by decide) (by decide) (by decide)
    (by decide) (by decide) rfl

/- ------------------------------------------------------------------ -/
/- mysql.Run projection lemmas                                         -/
/- ------------------------------------------------------------------ -/

theorem mysqlRun_env (m : Mysql) (fs : MysqlWorld) (args : List String) :
    (mysqlRun m fs args).env =
      if linkedOf (checkLibs fs.goos fs.otoolRun) then
        ["MYSQL_HISTFILE=" ++ m.historyFile, "MYSQL_PS1=" ++ m.styledBranch]
      else ["MYSQL_HISTFILE=" ++ m.historyFile] := by
  unfold mysqlRun
  cases hs : fs.startErr <;>
    cases hl : linkedOf (checkLibs fs.goos fs.otoolRun) <;> simp [hs, hl]

theorem mysqlRun_logged (m : Mysql) (fs : MysqlWorld) (args : List String) :
    (mysqlRun m fs args).logged =
      debugLog m.debug (checkLibs fs.goos fs.otoolRun) := by
  unfold mysqlRun
  cases hs : fs.startErr <;> simp [hs]

theorem mysqlRun_exit_fatal (m : Mysql) (fs : MysqlWorld) (args : List String)
    (e : String) (h : fs.startErr = some e) :
    (mysqlRun m fs args).exit = RunExit.fatal e := by
  unfold mysqlRun
  simp [h]

theorem mysqlRun_exit_done (m : Mysql) (fs : MysqlWorld) (args : List String)
    (h : fs.startErr = none) :
    (mysqlRun m fs args).exit = RunExit.done fs.waitErr := by
  unfold mysqlRun
  simp [h]

/-- A concrete mysql struct for witnesses. -/
def okM : Mysql :=
  { mysqlPath := "/usr/bin/mysql", dir := "",
    styledBranch := formatMySQLBranch "shop" "main",
    historyFile := "/home/u/.pscale/history/acme.shop.main", debug := false }

/-- A concrete Linux run where the introspection step is never executed. -/
def linuxWorld : MysqlWorld :=
  { goos := "linux", otoolRun := Except.error "never run", startErr := none,
    waitErr := none }

/-- A concrete run whose subprocess spawn fails. -/
def spawnFailWorld : MysqlWorld :=
  { goos := "darwin", otoolRun := Except.ok "/usr/lib/libedit.3.dylib",
    startErr := some "fork/exec: not found", waitErr := none }

/-- A concrete run whose subprocess exits non-zero. -/
def exitFailWorld : MysqlWorld :=
  { goos := "darwin", otoolRun := Except.ok "/usr/lib/libedit.3.dylib",
    startErr := none, waitErr := some "exit status 1" }

/-- The fully successful session with the subprocess spawn failing. -/
def spawnFailEnv : ShellEnv := { okEnv with mysqlWorld := spawnFailWorld }

/- ------------------------------------------------------------------ -/
/- C6                                                                  -/
/- ------------------------------------------------------------------ -/

/-- C6: the launcher sets the MYSQL_PS1 prompt exactly when the capability
check reports support; the prompt is database/branch followed by a greater
than sign, with the branch bold-red exactly when it is "main" and bold-blue
otherwise, and the two stylings differ for every branch name. -/
theorem prompt_customization (m : Mysql) (fs : MysqlWorld) (args : List String)
    (d b : String) :
    ((("MYSQL_PS1=" ++ m.styledBranch) ∈ (mysqlRun m fs args).env) ↔
      linkedOf (checkLibs fs.goos fs.otoolRun) = true) ∧
    formatMySQLBranch d b =
      Bold d ++ "/" ++ (if b = "main" then BoldRed b else BoldBlue b) ++ "> " ∧
    (b = "main" → formatMySQLBranch d b = Bold d ++ "/" ++ BoldRed b ++ "> ") ∧
    (b ≠ "main" → formatMySQLBranch d b = Bold d ++ "/" ++ BoldBlue b ++ "> ") ∧
    BoldRed b ≠ BoldBlue b := by
  refine ⟨?_, rfl, ?_, ?_, boldRed_ne_boldBlue b⟩
  · rw [mysqlRun_env]
    cases hl : linkedOf (checkLibs fs.goos fs.otoolRun) with
    | false =>
      simp only [if_false, Bool.false_eq_true, List.mem_singleton]
      exact ⟨fun h => absurd h (ps1_ne_histfile m.styledBranch m.historyFile),
        fun h => absurd h (by simp)⟩
    | true => simp
  · intro h
    simp [formatMySQLBranch, h]
  · intro h
    simp [formatMySQLBranch, h]

/-- Witness for C6 at the production branch. -/
theorem prompt_customization_witness :
    formatMySQLBranch "shop" "main" =
      Bold "shop" ++ "/" ++ BoldRed "main" ++ "> " :=
  (prompt_customization okM linuxWorld [] "shop" "main").2.2.1 rfl

/- ------------------------------------------------------------------ -/
/- C8                                                                  -/
/- ------------------------------------------------------------------ -/

/-- C8: capability introspection failure is non-fatal: on linux and unix
the detector reports unsupported without error; when the introspection
command fails, the capability defaults to unsupported (no prompt variable)
and the run still proceeds to the client; the condition is logged only
under debug. -/
theorem capability_check_nonfatal (m : Mysql) (fs : MysqlWorld)
    (args : List String) :
    ((fs.goos = "linux" ∨ fs.goos = "unix") →
      checkLibs fs.goos fs.otoolRun = Except.ok false) ∧
    (∀ e, checkLibs fs.goos fs.otoolRun = Except.error e →
      linkedOf (checkLibs fs.goos fs.otoolRun) = false ∧
      ("MYSQL_PS1=" ++ m.styledBranch) ∉ (mysqlRun m fs args).env) ∧
    (m.debug = false → (mysqlRun m fs args).logged = []) ∧
    (m.debug = true → ∀ e, checkLibs fs.goos fs.otoolRun = Except.error e →
      ("failed to check linking: " ++ e) ∈ (mysqlRun m fs args).logged) ∧
    (fs.startErr = none →
      (mysqlRun m fs args).exit = RunExit.done fs.waitErr) := by
  refine ⟨?_, ?_, ?_, ?_, mysqlRun_exit_done m fs args⟩
  · intro h
    unfold checkLibs
    rcases h with h | h <;> simp [h]
  · intro e he
    refine ⟨by simp [he, linkedOf], ?_⟩
    rw [mysqlRun_env]
    simp only [he, linkedOf, if_false, Bool.false_eq_true, List.mem_singleton]
    exact ps1_ne_histfile m.styledBranch m.historyFile
  · intro h
    rw [mysqlRun_logged]
    simp [debugLog, h]
  · intro h e he
    rw [mysqlRun_logged]
    simp [debugLog, h, he]

/-- Witness for C8: on Linux the detector reports unsupported and no error,
and the session proceeds. -/
theorem capability_check_nonfatal_witness :
    checkLibs linuxWorld.goos linuxWorld.otoolRun = Except.ok false :=
  (capability_check_nonfatal okM linuxWorld []).1 (Or.inl rfl)

/- ------------------------------------------------------------------ -/
/- C7                                                                  -/
/- ------------------------------------------------------------------ -/

/-- C7 counterexample: with a concrete spawn failure the launch error is
not returned to the caller: mysql.Run ends in log.Fatal and the whole
command exits the process, while a non-zero client exit is returned as the
session error.  The premise "a spawn failure is returned to the caller" is
false on the code. -/
theorem spawn_failure_not_returned :
    (mysqlRun okM spawnFailWorld []).exit = RunExit.fatal "fork/exec: not found" ∧
    (shellCmd "acme" "shop" spawnFailEnv).exit =
      ExitKind.fatalExit "fork/exec: not found" ∧
    (mysqlRun okM exitFailWorld []).exit = RunExit.done (some "exit status 1") := by
  decide

/-- C7 amended: launch-time spawn failure and in-session non-zero exit are
distinguished, but not as two returned error values: a spawn failure makes
mysql.Run terminate the process through log.Fatal without returning, while
a Wait error (non-zero exit) is returned as the session's own error and
never swallowed. -/
theorem launch_vs_session_failures (m : Mysql) (fs : MysqlWorld)
    (args : List String) :
    (∀ e, fs.startErr = some e → (mysqlRun m fs args).exit = RunExit.fatal e) ∧
    (fs.startErr = none → (mysqlRun m fs args).exit = RunExit.done fs.waitErr) := by
  exact ⟨fun e he => mysqlRun_exit_fatal m fs args e he,
    fun h => mysqlRun_exit_done m fs args h⟩

/-- Witness for C7 amended at a concrete spawn failure and a concrete
non-zero exit. -/
theorem launch_vs_session_failures_witness :
    (mysqlRun okM spawnFailWorld []).exit = RunExit.fatal "fork/exec: not found" ∧
    (mysqlRun okM exitFailWorld []).exit = RunExit.done (some "exit status 1") :=
  ⟨(launch_vs_session_failures okM spawnFailWorld []).1 "fork/exec: not found" rfl,
   (launch_vs_session_failures okM exitFailWorld []).2 rfl⟩

/-- The successful environment with the branch existence check failing
not-found and the branch resolved by prompt to "dev". -/
def notFoundEnv : ShellEnv :=
  { okEnv with promptBranch := Except.ok "dev",
               branchGet := Except.error ApiError.notFound }

/- ------------------------------------------------------------------ -/
/- C4                                                                  -/
/- ------------------------------------------------------------------ -/

theorem branchGetNotFoundMsg_names (org database b : String) :
    strContains (branchGetNotFoundMsg org database b) org ∧
    strContains (branchGetNotFoundMsg org database b) database ∧
    strContains (branchGetNotFoundMsg org database b) b := by
  refine ⟨strContains_intro ("database " ++ BoldBlue database ++ " and branch " ++
      BoldBlue b ++ " does not exist in organization " ++ "\x1b[34;1m") "\x1b[0m"
      org _ ?_,
    strContains_intro ("database " ++ "\x1b[34;1m")
      ("\x1b[0m" ++ " and branch " ++ BoldBlue b ++
        " does not exist in organization " ++ BoldBlue org) database _ ?_,
    strContains_intro ("database " ++ BoldBlue database ++ " and branch " ++
      "\x1b[34;1m")
      ("\x1b[0m" ++ " does not exist in organization " ++ BoldBlue org) b _ ?_⟩ <;>
  · apply String.ext
    simp [branchGetNotFoundMsg, BoldBlue, String.data_append]

/-- C4: when the branch existence check reports not-found, the command
returns an error whose message names the organization, the database and the
missing branch, and neither the credential file nor the tunnel is ever
created in that run. -/
theorem branch_lookup_not_found (org database b mp : String) (env : ShellEnv)
    (htty : env.isTTY = true) (hh : env.human = true)
    (hmp : env.mysqlPath = Except.ok mp) (hcc : env.clientCfg = Except.ok ())
    (hres : env.argBranch = some b ∨
      (env.argBranch = none ∧ env.promptBranch = Except.ok b))
    (hget : env.branchGet = Except.error ApiError.notFound) :
    (shellCmd org database env).exit = ExitKind.returned
      (some (ShellError.msgErr (branchGetNotFoundMsg org database b))) ∧
    strContains (branchGetNotFoundMsg org database b) org ∧
    strContains (branchGetNotFoundMsg org database b) database ∧
    strContains (branchGetNotFoundMsg org database b) b ∧
    (shellCmd org database env).tunnelStarted = false ∧
    (shellCmd org database env).credFileCreated = false ∧
    Event.tunnelStart ∉ (shellCmd org database env).events ∧
    Event.credFileCreate ∉ (shellCmd org database env).events := by
  have hnames := branchGetNotFoundMsg_names org database b
  have hout : shellCmd org database env = abortBefore
      ((match env.argBranch with
        | some _ => []
        | none => [Event.resolveBranch]) ++ [Event.branchGet]) false
      (ShellError.msgErr (branchGetNotFoundMsg org database b)) := by
    rcases hres with hab | ⟨hab, hpb⟩ <;>
      simp [shellCmd, htty, hh, hmp, hcc, hab, hget]
    simp [hpb]
  rcases hres with hab | ⟨hab, hpb⟩ <;>
    simp [hout, abortBefore, hab, hnames.1, hnames.2.1, hnames.2.2]

/-- Witness for C4 at a concrete not-found run. -/
theorem branch_lookup_not_found_witness :
    (shellCmd "acme" "shop" notFoundEnv).exit = ExitKind.returned
      (some (ShellError.msgErr (branchGetNotFoundMsg "acme" "shop" "dev"))) ∧
    strContains (branchGetNotFoundMsg "acme" "shop" "dev") "acme" ∧
    strContains (branchGetNotFoundMsg "acme" "shop" "dev") "shop" ∧
    strContains (branchGetNotFoundMsg "acme" "shop" "dev") "dev" ∧
    (shellCmd "acme" "shop" notFoundEnv).tunnelStarted = false ∧
    (shellCmd "acme" "shop" notFoundEnv).credFileCreated = false ∧
    Event.tunnelStart ∉ (shellCmd "acme" "shop" notFoundEnv).events ∧
    Event.credFileCreate ∉ (shellCmd "acme" "shop" notFoundEnv).events :=
  branch_lookup_not_found "acme" "shop" "dev" "/usr/bin/mysql" notFoundEnv
    rfl rfl rfl rfl (Or.inr ⟨rfl, rfl⟩) rfl

/- ------------------------------------------------------------------ -/
/- C5                                                                  -/
/- ------------------------------------------------------------------ -/

/-- C5 counterexample: in a fully successful concrete session the tunnel
goroutine is started strictly before the credential broker's branch-status
retrieval, refuting the claimed Broker-before-tunnel-start order. -/
theorem tunnel_before_broker :
    (shellCmd "acme" "shop" okEnv).events =
      [Event.resolveBranch, Event.branchGet, Event.proxyCreate,
       Event.tunnelStart, Event.statusGet, Event.credFileCreate,
       Event.capabilityCheck, Event.clientStart, Event.clientWait,
       Event.credFileRemove] ∧
    Event.tunnelStart ∈ (shellCmd "acme" "shop" okEnv).events ∧
    Event.statusGet ∈ (shellCmd "acme" "shop" okEnv).events ∧
    List.indexOf Event.tunnelStart (shellCmd "acme" "shop" okEnv).events <
      List.indexOf Event.statusGet (shellCmd "acme" "shop" okEnv).events := by
  decide

/-- C5 amended: in every session that runs to completion the components
execute in the order Resolver, Validator, proxy construction, tunnel start,
Credential Broker, credential-file creation, Capability Detector, Launcher;
in particular the tunnel is started before the broker's branch-status
retrieval, not after it. -/
theorem component_order (org database b mp host port hm : String)
    (env : ShellEnv) (st : BranchStatus)
    (htty : env.isTTY = true) (hh : env.human = true)
    (hmp : env.mysqlPath = Except.ok mp) (hcc : env.clientCfg = Except.ok ())
    (hab : env.argBranch = none) (hpb : env.promptBranch = Except.ok b)
    (hbg : env.branchGet = Except.ok ()) (hpn : env.proxyNew = Except.ok ())
    (hsg : env.statusGet = Except.ok st) (hu : ¬ st.credentials.user = "")
    (hopen : env.loginFs.openOk = true) (hname : ¬ env.tmpName = "")
    (hla : env.localAddr = Except.ok (host, port))
    (hhome : env.home = Except.ok hm) (hmk : env.mkdirOk = true)
    (hst : env.mysqlWorld.startErr = none) :
    (shellCmd org database env).events =
      [Event.resolveBranch, Event.branchGet, Event.proxyCreate,
       Event.tunnelStart, Event.statusGet, Event.credFileCreate,
       Event.capabilityCheck, Event.clientStart, Event.clientWait,
       Event.credFileRemove] := by
  simp [shellCmd, createLoginFile, historyFilePath, mysqlRun, htty, hh, hmp,
    hcc, hab, hpb, hbg, hpn, hsg, hu, hopen, hname, hla, hhome, hmk, hst]

/-- Witness for C5 amended at the concrete successful session. -/
theorem component_order_witness :
    (shellCmd "acme" "shop" okEnv).events =
      [Event.resolveBranch, Event.branchGet, Event.proxyCreate,
       Event.tunnelStart, Event.statusGet, Event.credFileCreate,
       Event.capabilityCheck, Event.clientStart, Event.clientWait,
       Event.credFileRemove] :=
  component_order "acme" "shop" "main" "/usr/bin/mysql" "127.0.0.1" "54321"
    "/home/u" okEnv { credentials := { user := "shop_ro", password := "secret" } }
    rfl rfl rfl rfl rfl rfl rfl rfl rfl (by decide) rfl (by decide) rfl rfl rfl rfl

/- ------------------------------------------------------------------ -/
/- C2                                                                  -/
/- ------------------------------------------------------------------ -/

/-- C2 counterexample: in a fully successful concrete session the
credential file path appears in the subprocess argument vector (inside the
--defaults-extra-file argument) and no appended environment variable
mentions the path, refuting the claim that the client is pointed at the
file via an environment variable and that the path is absent from the
arguments. -/
theorem cred_file_path_in_argv :
    ("--defaults-extra-file=/tmp/pscale-123" ∈
      (shellCmd "acme" "shop" okEnv).mysqlArgs) ∧
    strContains "--defaults-extra-file=/tmp/pscale-123" "/tmp/pscale-123" ∧
    (∀ v ∈ (shellCmd "acme" "shop" okEnv).mysqlEnv,
      ¬ strContains v "/tmp/pscale-123") := by
  decide

/-- C2 amended: the client is pointed at the credential file through the
--defaults-extra-file command-line argument carrying the file path; the
appended environment variables are exactly the history file and, when the
capability check succeeds, the prompt - no environment variable carries the
credential file path (the credentials themselves appear in neither). -/
theorem cred_file_via_argument (org database b mp host port hm : String)
    (env : ShellEnv) (st : BranchStatus)
    (htty : env.isTTY = true) (hh : env.human = true)
    (hmp : env.mysqlPath = Except.ok mp) (hcc : env.clientCfg = Except.ok ())
    (hab : env.argBranch = none) (hpb : env.promptBranch = Except.ok b)
    (hbg : env.branchGet = Except.ok ()) (hpn : env.proxyNew = Except.ok ())
    (hsg : env.statusGet = Except.ok st) (hu : ¬ st.credentials.user = "")
    (hopen : env.loginFs.openOk = true) (hname : ¬ env.tmpName = "")
    (hla : env.localAddr = Except.ok (host, port))
    (hhome : env.home = Except.ok hm) (hmk : env.mkdirOk = true) :
    (shellCmd org database env).mysqlArgs =
      ["--defaults-extra-file=" ++ env.tmpName, "-s", "-t", "-h", host,
       "-P", port] ∧
    ((shellCmd org database env).mysqlEnv =
      ["MYSQL_HISTFILE=" ++ historyPath hm org database b] ∨
     (shellCmd org database env).mysqlEnv =
      ["MYSQL_HISTFILE=" ++ historyPath hm org database b,
       "MYSQL_PS1=" ++ formatMySQLBranch database b]) := by
  constructor
  · cases hst : env.mysqlWorld.startErr <;>
      simp [shellCmd, createLoginFile, historyFilePath, mysqlRun, htty, hh,
        hmp, hcc, hab, hpb, hbg, hpn, hsg, hu, hopen, hname, hla, hhome, hmk,
        hst]
  · cases hl : linkedOf (checkLibs env.mysqlWorld.goos env.mysqlWorld.otoolRun) with
    | false =>
      left
      cases hst : env.mysqlWorld.startErr <;>
        simp [shellCmd, createLoginFile, historyFilePath, mysqlRun, htty, hh,
          hmp, hcc, hab, hpb, hbg, hpn, hsg, hu, hopen, hname, hla, hhome,
          hmk, hst, hl]
    | true =>
      right
      cases hst : env.mysqlWorld.startErr <;>
        simp [shellCmd, createLoginFile, historyFilePath, mysqlRun, htty, hh,
          hmp, hcc, hab, hpb, hbg, hpn, hsg, hu, hopen, hname, hla, hhome,
          hmk, hst, hl]

/-- Witness for C2 amended at the concrete successful session. -/
theorem cred_file_via_argument_witness :
    (shellCmd "acme" "shop" okEnv).mysqlArgs =
      ["--defaults-extra-file=" ++ okEnv.tmpName, "-s", "-t", "-h",
       "127.0.0.1", "-P", "54321"] ∧
    ((shellCmd "acme" "shop" okEnv).mysqlEnv =
      ["MYSQL_HISTFILE=" ++ historyPath "/home/u" "acme" "shop" "main"] ∨
     (shellCmd "acme" "shop" okEnv).mysqlEnv =
      ["MYSQL_HISTFILE=" ++ historyPath "/home/u" "acme" "shop" "main",
       "MYSQL_PS1=" ++ formatMySQLBranch "shop" "main"]) :=
  cred_file_via_argument "acme" "shop" "main" "/usr/bin/mysql" "127.0.0.1"
    "54321" "/home/u" okEnv
    { credentials := { user := "shop_ro", password := "secret" } }
    rfl rfl rfl rfl rfl rfl rfl rfl rfl (by decide) rfl (by decide) rfl rfl rfl

/- ------------------------------------------------------------------ -/
/- C1                                                                  -/
/- ------------------------------------------------------------------ -/

/-- C1 counterexample: in a session whose subprocess spawn fails after the
credential file was created, mysql.Run calls log.Fatal, the process exits
without running the deferred removal, and the credential file is left
behind. -/
theorem credential_file_left_behind :
    (shellCmd "acme" "shop" spawnFailEnv).credFileCreated = true ∧
    (shellCmd "acme" "shop" spawnFailEnv).credFileRemoved = false ∧
    (shellCmd "acme" "shop" spawnFailEnv).exit =
      ExitKind.fatalExit "fork/exec: not found" ∧
    Event.credFileRemove ∉ (shellCmd "acme" "shop" spawnFailEnv).events := by
  decide

set_option maxHeartbeats 2000000 in
/-- C1 amended: on every exit path that returns from the command - normal
completion, in-session client error (including the Wait error produced by
cancellation), and every setup error after creation - the credential file
is removed; only a spawn failure, which terminates the process through
log.Fatal, bypasses the deferred removal and leaves the file behind. -/
theorem credential_file_removed_on_every_return (org database : String)
    (env : ShellEnv) (hname : ¬ env.tmpName = "") (e : Option ShellError) :
    (shellCmd org database env).credFileCreated = true →
    (shellCmd org database env).exit = ExitKind.returned e →
    (shellCmd org database env).credFileRemoved = true := by
  unfold shellCmd
  cases ho : env.loginFs.openOk
  case false =>
    simp only [createLoginFile, ho]
    repeat' split
    all_goals try simp_all [abortBefore, abortAfter, noFile]
  case true =>
    simp only [createLoginFile, ho]
    repeat' split
    all_goals try simp_all [abortBefore, abortAfter, noFile]

/-- Witness for C1 amended at the concrete successful session. -/
theorem credential_file_removed_on_every_return_witness :
    (shellCmd "acme" "shop" okEnv).credFileRemoved = true :=
  credential_file_removed_on_every_return "acme" "shop" okEnv (by decide) none
    (by decide) (by decide)

end PScale
